import Mathlib

/-!
Shallow embedding of the Sardana Adlink OneD controller
(`src/sardana_adlink/ctrl/AdlinkAIOneDCtrl.py`) and proofs about it.

Python dictionaries keyed by axis id are embedded as association lists
(`List (Nat × α)`), preserving insertion order; Python float quantities
(integration time, standard deviations) are embedded as rationals; code
that can raise an exception is embedded as an `Option`-returning
function, `none` standing for the raised exception.
-/

namespace Adlink

/-- Dictionary read `d[k]`: `some` the stored value, `none` when the key is
absent (a Python `KeyError`). -/
def dget {α : Type} (d : List (Nat × α)) (k : Nat) : Option α :=
  match d with
  | [] => none
  | (k2, v) :: rest => if k2 = k then some v else dget rest k

/-- Dictionary write `d[k] = v`: updates the entry in place when present,
appends it otherwise (Python dict insertion semantics). -/
def dset {α : Type} (d : List (Nat × α)) (k : Nat) (v : α) : List (Nat × α) :=
  match d with
  | [] => [(k, v)]
  | (k2, w) :: rest => if k2 = k then (k2, v) :: rest else (k2, w) :: dset rest k v

/-- Dictionary removal `d.pop(k)` (no default): `some` the dictionary without
the entry, `none` when the key is absent (Python raises `KeyError`). -/
def dpop {α : Type} (d : List (Nat × α)) (k : Nat) : Option (List (Nat × α)) :=
  match d with
  | [] => none
  | (k2, v) :: rest =>
      if k2 = k then some rest
      else (dpop rest k).map (fun rest2 => (k2, v) :: rest2)

/-- Per-channel registry state of `AdlinkAIOneDCtrl`: the five per-axis
dictionaries `self.sd`, `self.formulas`, `self.sharedFormula`,
`self._apply_formulas` and `self.dataBuff` (lines 145-151 of the source). -/
structure Registry where
  sd : List (Nat × ℚ)
  formulas : List (Nat × String)
  sharedFormula : List (Nat × Bool)
  applyFormulas : List (Nat × Bool)
  dataBuff : List (Nat × List ℚ)
deriving DecidableEq, Repr

/-- Registry right after `__init__`: all five dictionaries empty. -/
def emptyRegistry : Registry :=
  { sd := [], formulas := [], sharedFormula := [], applyFormulas := [], dataBuff := [] }

/-- Embedding of `AddDevice(axis)` (source lines 198-205): initialises the
axis entry in all five per-axis dictionaries. -/
def AddDevice (r : Registry) (axis : Nat) : Registry :=
  { r with
    sd := dset r.sd axis 0
    formulas := dset r.formulas axis "value"
    applyFormulas := dset r.applyFormulas axis false
    sharedFormula := dset r.sharedFormula axis false
    dataBuff := dset r.dataBuff axis [] }

/-- Embedding of `DeleteDevice(axis)` (source lines 207-213): pops the axis
entry from `sd`, `formulas`, `sharedFormula` and `dataBuff` in that order.
The source does NOT pop `_apply_formulas`; the embedding mirrors that.
Returns `none` when a pop raises `KeyError`. -/
def DeleteDevice (r : Registry) (axis : Nat) : Option Registry := do
  let sd2 ← dpop r.sd axis
  let f2 ← dpop r.formulas axis
  let sh2 ← dpop r.sharedFormula axis
  let db2 ← dpop r.dataBuff axis
  pure { r with sd := sd2, formulas := f2, sharedFormula := sh2, dataBuff := db2 }

/-- ASCII case folding of one character, the character-level behaviour of
Python `str.lower` on the ASCII range used by the controller. -/
def pyLowerChar (c : Char) : Char :=
  if 'A' ≤ c ∧ c ≤ 'Z' then Char.ofNat (c.toNat + 32) else c

/-- Embedding of Python `str.lower()` (ASCII range), character by
character over the string's character list. -/
def pyLower (s : String) : String :=
  String.mk (s.data.map pyLowerChar)

/-- Embedding of the `name.lower() == "formula"` branch of
`SetAxisExtraPar` (source lines 409-416): lower-cases the value, stores it,
sets the apply flag to `False`, then sets it to `True` under the source's
condition `formula != 'value' or formula != '(value)'` (kept verbatim). -/
def SetAxisExtraPar_formula (r : Registry) (axis : Nat) (value : String) : Registry :=
  let formula := pyLower value
  let r1 := { r with formulas := dset r.formulas axis formula }
  let r2 := { r1 with applyFormulas := dset r1.applyFormulas axis false }
  if formula ≠ "value" ∨ formula ≠ "(value)" then
    { r2 with applyFormulas := dset r2.applyFormulas axis true }
  else r2

/-- Embedding of the `name.lower() == "sharedformula"` branch of
`SetAxisExtraPar` (source lines 417-421): stores the flag; when it is true,
assigns `formulas[axis]` to every key of `formulas`. Reading
`formulas[axis]` raises `KeyError` (`none`) when the axis is unknown and
the dictionary is non-empty; the loop body never runs on an empty
dictionary. The source does not touch `_apply_formulas` here. -/
def SetAxisExtraPar_sharedformula (r : Registry) (axis : Nat) (value : Bool) :
    Option Registry :=
  let r1 := { r with sharedFormula := dset r.sharedFormula axis value }
  if value then
    if r1.formulas.isEmpty then some r1
    else
      match dget r1.formulas axis with
      | some f => some { r1 with formulas := r1.formulas.map (fun p => (p.1, f)) }
      | none => none
  else some r1

/-- Embedding of the `name.lower() == "formula"` branch of
`GetAxisExtraPar` (source lines 400-405): returns `self.formulas[axis]`. -/
def GetAxisExtraPar_formula (r : Registry) (axis : Nat) : Option String :=
  dget r.formulas axis

/-- Tango device states as observed by the controller (`self._hw_state`);
`stUnknown` stands for the `None` held right after construction and for
payloads the embedding does not distinguish further. -/
inductive HwState where
  | stOn
  | stRunning
  | stStandby
  | stOther
  | stUnknown
deriving DecidableEq, Repr

/-- Sardana acquisition synchronization modes as used by the controller
(`self._synchronization`); `unknownSync` stands for any other value. -/
inductive AcqSynch where
  | softwareTrigger
  | hardwareTrigger
  | unknownSync
deriving DecidableEq, Repr

/-- Error raised by `LoadOne` (the spec's `ConfigurationError`, a
`ValueError` in the source). -/
inductive LoadError where
  | configurationError
deriving DecidableEq, Repr

/-- Errors raised by `StartAll`: `startFailure` is the final
`Could not start acquisition` raise; `subscribeError` models the raise
while computing the subscription attribute name from an unset master
channel. -/
inductive StartError where
  | startFailure
  | subscribeError
deriving DecidableEq, Repr

/-- Value written to a device attribute by `LoadOne`. -/
inductive WriteVal where
  | intVal (n : ℤ)
  | strVal (s : String)
deriving DecidableEq, Repr

/-- Runtime acquisition state of the controller: `self._last_index_read`,
`self._repetitions`, `self._id_callback`, `self._master_channel`,
`self._new_data`, the contents of `self._index_queue`, and
`self.intTime` (source lines 148-165). -/
structure AcqState where
  lastIndexRead : ℤ
  repetitions : ℤ
  idCallback : Option Nat
  masterChannel : Option Nat
  newData : Bool
  queue : List ℤ
  intTime : ℚ
deriving DecidableEq, Repr

/-- Runtime state right after `__init__` (source lines 148-165). -/
def initAcqState : AcqState :=
  { lastIndexRead := -1, repetitions := 0, idCallback := none,
    masterChannel := none, newData := false, queue := [], intTime := 0 }

/-- Embedding of `_clean_acquisition` (source lines 174-183): resets the
read cursor and the repetition count, unsubscribes the data-ready callback,
re-initialises the notification queue, forgets the master channel and
clears the new-data flag. The device-side `ClearBuffer` call touches no
controller state. -/
def cleanAcquisition (s : AcqState) : AcqState :=
  { s with lastIndexRead := -1, repetitions := 0, idCallback := none,
           queue := [], masterChannel := none, newData := false }

/-- Python `int()` truncation of a rational toward zero, as used for
`chn_samp_per_trigger = int(self.intTime * sample_rate)`. -/
def pyInt (q : ℚ) : ℤ :=
  Int.tdiv q.num (q.den : ℤ)

/-- Embedding of `LoadOne` (source lines 236-263) on the controller runtime
state: stop and clean, record integration time and repetitions, compute
samples per trigger, then branch on the synchronization mode. Returns the
state reached, the trigger-parameter writes performed on the device, and
the raised error if any; the source raises before any of the four trigger
writes in both error cases, so those runs carry an empty write list. -/
def LoadOne (s : AcqState) (sync : AcqSynch) (value : ℚ) (repetitions : ℤ)
    (sampleRate : ℤ) (pointsPerStep : ℤ) (startWaitTime : ℚ) :
    AcqState × List (String × WriteVal) × Option LoadError :=
  let s1 := cleanAcquisition s
  let s2 := { s1 with intTime := value, repetitions := repetitions }
  let chn := pyInt (value * (sampleRate : ℚ))
  match sync with
  | AcqSynch.softwareTrigger =>
      if value ≤ startWaitTime then (s2, [], some LoadError.configurationError)
      else (s2, [("TriggerInfinite", WriteVal.intVal 0),
                 ("TriggerSources", WriteVal.strVal "SOFT"),
                 ("NumOfTriggers", WriteVal.intVal s2.repetitions),
                 ("ChannelSamplesPerTrigger", WriteVal.intVal chn)], none)
  | AcqSynch.hardwareTrigger =>
      let s3 := if pointsPerStep > 1 then { s2 with repetitions := pointsPerStep } else s2
      (s3, [("TriggerInfinite", WriteVal.intVal 0),
            ("TriggerSources", WriteVal.strVal "ExtD:+"),
            ("NumOfTriggers", WriteVal.intVal s3.repetitions),
            ("ChannelSamplesPerTrigger", WriteVal.intVal chn)], none)
  | AcqSynch.unknownSync => (s2, [], some LoadError.configurationError)

/-- Embedding of the `StartAll` retry loop (source lines 291-300) over the
remaining attempt numbers of `range(1, 4)`: each iteration issues start,
sleeps, queries the state (`stateAfter i`), and breaks on `RUNNING`;
otherwise it stops the device and retries. `prev` carries the attempt
count and device state observed so far; returns the attempts made and the
last observed device state. -/
def runStartLoop (stateAfter : Nat → HwState) (prev : Nat × HwState) :
    List Nat → Nat × HwState
  | [] => prev
  | i :: rest =>
      let st := stateAfter i
      if st = HwState.stRunning then (i, st)
      else runStartLoop stateAfter (i, st) rest

/-- Embedding of `StartAll`'s retry-and-raise logic (source lines 290-305):
up to 3 start attempts breaking on `RUNNING`; afterwards, if the device
state is still not `RUNNING` and the skip-start flag is unset, raise
`Could not start acquisition`. Returns attempts, final state, error. -/
def StartAllCore (stateAfter : Nat → HwState) (skipStart : Bool) :
    Nat × HwState × Option StartError :=
  let r := runStartLoop stateAfter (0, HwState.stUnknown) [1, 2, 3]
  (r.1, r.2,
   if r.2 ≠ HwState.stRunning ∧ skipStart = false
   then some StartError.startFailure else none)

/-- Embedding of `StartAll` (source lines 273-305) on the controller
runtime state: in hardware mode first subscribes the data-ready listener
for the master channel (computing the attribute name from
`self._master_channel - 2` raises when no master channel is set), then
runs the retry loop and the skip-start check. The subscription handle is
modelled by the master channel id. -/
def StartAll (s : AcqState) (sync : AcqSynch) (skipStart : Bool)
    (stateAfter : Nat → HwState) :
    AcqState × Nat × HwState × Option StartError :=
  match sync, s.masterChannel with
  | AcqSynch.hardwareTrigger, none =>
      (s, 0, HwState.stUnknown, some StartError.subscribeError)
  | AcqSynch.hardwareTrigger, some m =>
      ({ s with idCallback := some m }, StartAllCore stateAfter skipStart)
  | _, _ => (s, StartAllCore stateAfter skipStart)

/-- Embedding of `AbortOne` (source lines 392-398): queries the state,
stops the device unless it is standby (device-side only), then runs
`_clean_acquisition`. -/
def AbortOne (s : AcqState) : AcqState :=
  cleanAcquisition s

/-- Data-ready event payload seen by the listener: the error flag and the
trigger counter. -/
structure DataReadyEvent where
  err : Bool
  ctr : ℤ
deriving DecidableEq, Repr

/-- Embedding of `ListenerDataReady.push_event` (source lines 46-59): a
non-error event enqueues `event.ctr - 1`; an error event is only logged. -/
def push_event (q : List ℤ) (event : DataReadyEvent) : List ℤ :=
  if event.err = false then q ++ [event.ctr - 1] else q

/-- Embedding of the hardware-mode drain of `ReadAll` (source lines
340-347). `self._index_queue.get()` blocks forever on an empty queue
(`none`); on a non-empty queue it consumes the head, after which the
`while` condition's read of the undefined attribute `self._iterations`
raises `AttributeError`, which the surrounding `except` swallows, leaving
`new_index` untouched. Returns the remaining queue and the resulting
`new_index`. -/
def drainIndexQueue (q : List ℤ) (newIndex : ℤ) : Option (List ℤ × ℤ) :=
  match q with
  | [] => none
  | _ :: rest => some (rest, newIndex)

/-- Embedding of the hardware-synchronization branch of `ReadAll` (source
lines 313-314 and 333-374) on the controller runtime state: set the
new-data flag, determine `new_index` (`repetitions - 1` when the device
state is `ON`, otherwise by draining the notification queue), return with
no new data when the index did not advance, else fetch the index range
`[lastIndexRead + 1, new_index]` and advance the read cursor to
`new_index`. `none` models the drain blocking forever on an empty queue;
the second component of the result is the fetched index range, when one
is fetched. -/
def ReadAll_hw (s : AcqState) (hwState : HwState) :
    Option (AcqState × Option (ℤ × ℤ)) :=
  let s0 := { s with newData := true }
  match (if hwState = HwState.stOn then some (s0.queue, s0.repetitions - 1)
         else drainIndexQueue s0.queue s0.lastIndexRead) with
  | none => none
  | some (q2, newIndex) =>
      if newIndex = s0.lastIndexRead then
        some ({ s0 with queue := q2, newData := false }, none)
      else
        some ({ s0 with queue := q2, lastIndexRead := newIndex },
              some (s0.lastIndexRead + 1, newIndex))

/-- One hardware-mode read cycle: the data-ready events delivered since the
previous cycle, pushed on the queue by the listener, followed by `ReadAll`
with the device state observed at this cycle. -/
structure ReadCycleInput where
  hwState : HwState
  events : List DataReadyEvent
deriving DecidableEq, Repr

/-- One read cycle: enqueue the cycle's events, then run the hardware
branch of `ReadAll`. -/
def readStep (s : AcqState) (inp : ReadCycleInput) :
    Option (AcqState × Option (ℤ × ℤ)) :=
  ReadAll_hw { s with queue := inp.events.foldl push_event s.queue } inp.hwState

/-- Repeated hardware-mode read cycles within one acquisition, collecting
the fetched index ranges in order; a blocked `ReadAll` stalls the run. -/
def runReads (s : AcqState) : List ReadCycleInput → AcqState × List (ℤ × ℤ)
  | [] => (s, [])
  | inp :: rest =>
      match readStep s inp with
      | none => (s, [])
      | some (s1, none) => runReads s1 rest
      | some (s1, some r) =>
          let rec2 := runReads s1 rest
          (rec2.1, r :: rec2.2)

theorem dget_dset_self {α : Type} (d : List (Nat × α)) (k : Nat) (v : α) :
    dget (dset d k v) k = some v := by
  induction d with
  | nil => simp [dset, dget]
  | cons p rest ih =>
      obtain ⟨k2, w⟩ := p
      by_cases h : k2 = k
      · simp [dset, dget, h]
      · simp [dset, dget, h, ih]

/-- C3 (code_bug evidence): the source's test
`formula != 'value' or formula != '(value)'` is satisfied by every string,
so setting the formula of axis 1 to the identity expression `value` (or
`(value)`) leaves the apply-formula flag `True`, where the claim (and the
default state installed by `AddDevice`) requires `False`. -/
theorem C3_identity_formula_sets_apply_true :
    (SetAxisExtraPar_formula (AddDevice emptyRegistry 1) 1 "value").applyFormulas
      = [(1, true)] ∧
    (SetAxisExtraPar_formula (AddDevice emptyRegistry 1) 1 "(value)").applyFormulas
      = [(1, true)] := by
  constructor <;> decide

/-- C4 (code_bug evidence): with axes 1 and 2 registered and axis 2 given the
formula `value*2` (apply flag true), setting shared-formula to true on
axis 2 copies `value*2` to axis 1 but leaves axis 1's apply-formula flag
at its default `false`, inconsistent with the copied non-identity formula. -/
theorem C4_sharedformula_leaves_apply_flags_stale :
    ((SetAxisExtraPar_sharedformula
        (SetAxisExtraPar_formula (AddDevice (AddDevice emptyRegistry 1) 2) 2 "value*2")
        2 true).map
      (fun r => (dget r.formulas 1, dget r.applyFormulas 1)))
      = some (some "value*2", some false) := by
  decide

/-- C9 (code_bug evidence): after `AddDevice(1)` followed by
`DeleteDevice(1)` the set of added axes is empty and `sd`, `formulas`,
`sharedFormula`, `dataBuff` have no keys, but `_apply_formulas` still holds
the stale key 1 — `DeleteDevice` never pops it. -/
theorem C9_delete_leaves_apply_formulas_key :
    ((DeleteDevice (AddDevice emptyRegistry 1) 1).map
      (fun r => ((dget r.applyFormulas 1).isSome, (dget r.sd 1).isSome,
                 (dget r.formulas 1).isSome, (dget r.sharedFormula 1).isSome,
                 (dget r.dataBuff 1).isSome)))
      = some (true, false, false, false, false) := by
  decide

/-- C10 (confirmed): after `SetAxisExtraPar(axis, "FORMULA", v)` the stored
formula is the lower-cased input, so `GetAxisExtraPar(axis, "FORMULA")`
returns `pyLower v`; the set-then-get round trip is the identity exactly
when the input is already lower case (`pyLower v = v`). -/
theorem C10_formula_set_get_roundtrip (r : Registry) (axis : Nat) (v : String) :
    GetAxisExtraPar_formula (SetAxisExtraPar_formula r axis v) axis = some (pyLower v) ∧
    (GetAxisExtraPar_formula (SetAxisExtraPar_formula r axis v) axis = some v
      ↔ pyLower v = v) := by
  have h : GetAxisExtraPar_formula (SetAxisExtraPar_formula r axis v) axis
      = some (pyLower v) := by
    simp only [SetAxisExtraPar_formula, GetAxisExtraPar_formula]
    split <;> simp [dget_dset_self]
  refine ⟨h, ?_⟩
  rw [h]
  constructor
  · intro h2
    exact Option.some.inj h2
  · intro h2
    rw [h2]


/-- C1 (code_bug evidence): with the data-ready handler having enqueued the
indices 2, 1, 4 (events with trigger counters 3, 2, 5) and the device state
not `ON`, the `ReadAll` drain consumes a single queue element, hits the
undefined `self._iterations` (swallowed `AttributeError`), and ends with
`new_index` still equal to the read cursor -1: no new data, cursor -1,
indices 1 and 4 left behind — not the claimed confirmed index 4. -/
theorem C1_drain_loses_indices :
    (ReadAll_hw
      { initAcqState with
          repetitions := 5,
          queue := [DataReadyEvent.mk false 3, DataReadyEvent.mk false 2,
                    DataReadyEvent.mk false 5].foldl push_event [] }
      HwState.stRunning).map
      (fun p => (p.1.lastIndexRead, p.1.newData, p.1.queue, p.2))
      = some (-1, false, [1, 4], none) := by
  decide

/-- C5 (code_bug evidence): in hardware mode with the device state not `ON`
and an empty notification queue, the drain's `self._index_queue.get()` is
an unconditional blocking read with no timeout: `ReadAll` never returns
(embedded as `none`), instead of completing within a bound. -/
theorem C5_empty_queue_drain_blocks :
    ReadAll_hw { initAcqState with repetitions := 5 } HwState.stRunning
      = none := by
  decide

/-- C7 (confirmed): after Load → Start → Abort, the runtime state fields
named by the claim are back to their post-construction values: read cursor
-1, new-data flag false, no event subscription, no master channel — for
every starting state, mode, and device behaviour, because
`AbortOne` ends in `_clean_acquisition`, which resets exactly these
fields. -/
theorem C7_load_start_abort_roundtrip (s : AcqState) (sync : AcqSynch) (value : ℚ)
    (repetitions sampleRate pointsPerStep : ℤ) (startWaitTime : ℚ)
    (skipStart : Bool) (stateAfter : Nat → HwState) :
    (AbortOne (StartAll (LoadOne s sync value repetitions sampleRate pointsPerStep
        startWaitTime).1 sync skipStart stateAfter).1).lastIndexRead
      = initAcqState.lastIndexRead ∧
    (AbortOne (StartAll (LoadOne s sync value repetitions sampleRate pointsPerStep
        startWaitTime).1 sync skipStart stateAfter).1).newData
      = initAcqState.newData ∧
    (AbortOne (StartAll (LoadOne s sync value repetitions sampleRate pointsPerStep
        startWaitTime).1 sync skipStart stateAfter).1).idCallback
      = initAcqState.idCallback ∧
    (AbortOne (StartAll (LoadOne s sync value repetitions sampleRate pointsPerStep
        startWaitTime).1 sync skipStart stateAfter).1).masterChannel
      = initAcqState.masterChannel := by
  simp [AbortOne, cleanAcquisition, initAcqState]

/-- C8 (confirmed): in software synchronization, `LoadOne` raises the
configuration error whenever the integration time is at most the
start-wait threshold, and in that case none of the four trigger parameters
is written to the device. -/
theorem C8_software_load_rejects_short_integration (s : AcqState) (value : ℚ)
    (repetitions sampleRate pointsPerStep : ℤ) (startWaitTime : ℚ)
    (h : value ≤ startWaitTime) :
    (LoadOne s AcqSynch.softwareTrigger value repetitions sampleRate pointsPerStep
        startWaitTime).2.2 = some LoadError.configurationError ∧
    (LoadOne s AcqSynch.softwareTrigger value repetitions sampleRate pointsPerStep
        startWaitTime).2.1 = [] := by
  simp [LoadOne, h]

/-- C8 witness: the claim's concrete scenario, integration time 0.01 s
against the 0.05 s start-wait threshold. -/
theorem C8_witness :
    (1 : ℚ)/100 ≤ 5/100 ∧
    (LoadOne initAcqState AcqSynch.softwareTrigger (1/100) 1 2000 1 (5/100)).2.2
      = some LoadError.configurationError ∧
    (LoadOne initAcqState AcqSynch.softwareTrigger (1/100) 1 2000 1 (5/100)).2.1
      = [] :=
  ⟨by norm_num,
   (C8_software_load_rejects_short_integration initAcqState (1/100) 1 2000 1 (5/100)
     (by norm_num)).1,
   (C8_software_load_rejects_short_integration initAcqState (1/100) 1 2000 1 (5/100)
     (by norm_num)).2⟩

theorem runStartLoop_eq (f : Nat → HwState) :
    runStartLoop f (0, HwState.stUnknown) [1, 2, 3] =
      if f 1 = HwState.stRunning then (1, f 1)
      else if f 2 = HwState.stRunning then (2, f 2)
      else (3, f 3) := by
  simp only [runStartLoop, ite_self]

/-- C6 (confirmed): the `StartAll` retry logic performs at most 3 attempts,
stops at the first attempt whose queried state is `RUNNING` (raising
nothing then), never raises when the skip-start flag is set, and raises
the start failure when the flag is unset and no attempt reaches
`RUNNING`. -/
theorem C6_start_retry (stateAfter : Nat → HwState) (skipStart : Bool) :
    (StartAllCore stateAfter skipStart).1 ≤ 3 ∧
    (∀ k, 1 ≤ k → k ≤ 3 → stateAfter k = HwState.stRunning →
      (∀ j, 1 ≤ j → j < k → stateAfter j ≠ HwState.stRunning) →
      (StartAllCore stateAfter skipStart).1 = k ∧
      (StartAllCore stateAfter skipStart).2.2 = none) ∧
    (skipStart = true → (StartAllCore stateAfter skipStart).2.2 = none) ∧
    (skipStart = false →
      (∀ k, 1 ≤ k → k ≤ 3 → stateAfter k ≠ HwState.stRunning) →
      (StartAllCore stateAfter skipStart).2.2 = some StartError.startFailure) := by
  have he := runStartLoop_eq stateAfter
  by_cases h1 : stateAfter 1 = HwState.stRunning
  · have hs : StartAllCore stateAfter skipStart = (1, stateAfter 1, none) := by
      simp [StartAllCore, he, h1]
    refine ⟨by simp [hs], ?_, by simp [hs], ?_⟩
    · intro k hk1 hk3 hkr hprev
      have hk : k = 1 := by
        by_contra hne
        exact hprev 1 (le_refl 1) (by omega) h1
      subst hk
      simp [hs]
    · intro hskip hnone
      exact absurd h1 (hnone 1 (by omega) (by omega))
  · by_cases h2 : stateAfter 2 = HwState.stRunning
    · have hs : StartAllCore stateAfter skipStart = (2, stateAfter 2, none) := by
        simp [StartAllCore, he, h1, h2]
      refine ⟨by simp [hs], ?_, by simp [hs], ?_⟩
      · intro k hk1 hk3 hkr hprev
        have hk : k = 2 := by
          interval_cases k
          · exact absurd hkr h1
          · rfl
          · exact absurd h2 (hprev 2 (by omega) (by omega))
        subst hk
        simp [hs]
      · intro hskip hnone
        exact absurd h2 (hnone 2 (by omega) (by omega))
    · have hs : StartAllCore stateAfter skipStart =
          (3, stateAfter 3,
           if stateAfter 3 ≠ HwState.stRunning ∧ skipStart = false
           then some StartError.startFailure else none) := by
        simp [StartAllCore, he, h1, h2]
      refine ⟨by simp [hs], ?_, ?_, ?_⟩
      · intro k hk1 hk3 hkr hprev
        have hk : k = 3 := by
          interval_cases k
          · exact absurd hkr h1
          · exact absurd hkr h2
          · rfl
        subst hk
        refine ⟨by simp [hs], ?_⟩
        simp [hs, hkr]
      · intro hskip
        subst hskip
        simp [hs]
      · intro hskip h3
        subst hskip
        have h3x := h3 3 (by omega) (by omega)
        simp [hs, h3x]

/-- Device-state responses used by the C6 witness: attempt 1 stays standby,
attempt 2 reaches running. -/
def c6WitnessStates : Nat → HwState :=
  fun k => if k = 2 then HwState.stRunning else HwState.stStandby

/-- C6 witness: with the state reaching `RUNNING` on the second attempt
and the skip-start flag unset, the retry loop makes exactly 2 attempts and
raises nothing. -/
theorem C6_witness :
    (StartAllCore c6WitnessStates false).1 = 2 ∧
    (StartAllCore c6WitnessStates false).2.2 = none :=
  (C6_start_retry c6WitnessStates false).2.1 2 (by omega) (by omega)
    (by decide)
    (fun j hj1 hj2 => by
      have hj : j = 1 := by omega
      subst hj
      decide)

theorem ReadAll_hw_cursor (s : AcqState) (hw : HwState)
    (p : AcqState × Option (ℤ × ℤ))
    (hinv : s.lastIndexRead ≤ s.repetitions - 1)
    (h : ReadAll_hw s hw = some p) :
    s.lastIndexRead ≤ p.1.lastIndexRead ∧
    p.1.repetitions = s.repetitions ∧
    p.1.lastIndexRead ≤ p.1.repetitions - 1 ∧
    ∀ lo hi, p.2 = some (lo, hi) →
      lo = s.lastIndexRead + 1 ∧ hi = p.1.lastIndexRead ∧
      s.lastIndexRead < p.1.lastIndexRead := by
  unfold ReadAll_hw at h
  split at h
  · -- device state ON: new_index = repetitions - 1
    simp only [] at h
    by_cases hEq : s.repetitions - 1 = s.lastIndexRead
    · rw [if_pos hEq] at h
      obtain rfl : _ = p := Option.some.inj h
      refine ⟨by simp, by simp, by simp [hinv], ?_⟩
      intro lo hi hlh
      simp at hlh
    · rw [if_neg hEq] at h
      obtain rfl : _ = p := Option.some.inj h
      refine ⟨by simp; omega, by simp, by simp, ?_⟩
      intro lo hi hlh
      simp at hlh
      obtain ⟨rfl, rfl⟩ := hlh
      refine ⟨rfl, by simp, by simp; omega⟩
  · -- device state not ON: drain
    rename_i hOn
    revert h
    unfold drainIndexQueue
    cases s.queue with
    | nil => intro h; exact absurd h (by simp)
    | cons hd tl =>
        intro h
        simp only [] at h
        rw [if_true] at h
        obtain rfl : _ = p := Option.some.inj h
        refine ⟨by simp, by simp, by simp [hinv], ?_⟩
        intro lo hi hlh
        simp at hlh

/-- C2 (confirmed): across any sequence of hardware-mode read cycles (each
delivering arbitrary, possibly unordered or duplicated, data-ready events
and an arbitrary observed device state), the read cursor is monotonically
non-decreasing, and the index ranges fetched by the successive `ReadAll`
calls are strictly increasing and pairwise non-overlapping. The hypothesis
is the cursor invariant established by `LoadOne`'s clean (cursor -1,
repetitions at least 0). -/
theorem C2_read_cursor_monotone (s : AcqState) (ins : List ReadCycleInput)
    (hinv : s.lastIndexRead ≤ s.repetitions - 1) :
    s.lastIndexRead ≤ (runReads s ins).1.lastIndexRead ∧
    (∀ r ∈ (runReads s ins).2,
      s.lastIndexRead < r.1 ∧ r.1 ≤ r.2 ∧
      r.2 ≤ (runReads s ins).1.lastIndexRead) ∧
    List.Pairwise (fun a b => a.2 < b.1) (runReads s ins).2 := by
  induction ins generalizing s with
  | nil => simp [runReads]
  | cons inp rest ih =>
      cases hstep : readStep s inp with
      | none =>
          have hrun1 : (runReads s (inp :: rest)).1 = s := by simp [runReads, hstep]
          have hrun2 : (runReads s (inp :: rest)).2 = [] := by simp [runReads, hstep]
          rw [hrun1, hrun2]
          simp
      | some p =>
          obtain ⟨s1, res⟩ := p
          have hstep2 := hstep
          rw [readStep] at hstep2
          have hprops := ReadAll_hw_cursor
            { s with queue := inp.events.foldl push_event s.queue }
            inp.hwState (s1, res) (by simpa using hinv) hstep2
          simp only [] at hprops
          obtain ⟨hmono, hrep, hinv1, hrange⟩ := hprops
          cases res with
          | none =>
              have hrun1 : (runReads s (inp :: rest)).1 = (runReads s1 rest).1 := by
                simp [runReads, hstep]
              have hrun2 : (runReads s (inp :: rest)).2 = (runReads s1 rest).2 := by
                simp [runReads, hstep]
              obtain ⟨ih1, ih2, ih3⟩ := ih s1 hinv1
              rw [hrun1, hrun2]
              refine ⟨le_trans hmono ih1, ?_, ih3⟩
              intro r hr
              obtain ⟨h1, h2, h3⟩ := ih2 r hr
              exact ⟨lt_of_le_of_lt hmono h1, h2, h3⟩
          | some rg =>
              obtain ⟨lo, hi⟩ := rg
              obtain ⟨hlo, hhi, hlt⟩ := hrange lo hi rfl
              have hrun1 : (runReads s (inp :: rest)).1 = (runReads s1 rest).1 := by
                simp [runReads, hstep]
              have hrun2 : (runReads s (inp :: rest)).2
                  = (lo, hi) :: (runReads s1 rest).2 := by
                simp [runReads, hstep]
              obtain ⟨ih1, ih2, ih3⟩ := ih s1 hinv1
              rw [hrun1, hrun2]
              refine ⟨le_trans hmono ih1, ?_, ?_⟩
              · intro r hr
                rcases List.mem_cons.mp hr with hr1 | hr2
                · subst hr1
                  refine ⟨by simp; omega, by simp; omega, ?_⟩
                  simp only []
                  rw [hhi]
                  exact le_trans (le_of_eq rfl) ih1
                · obtain ⟨h1, h2, h3⟩ := ih2 r hr2
                  exact ⟨lt_of_le_of_lt hmono h1, h2, h3⟩
              · refine List.Pairwise.cons ?_ ih3
                intro b hb
                obtain ⟨h1, h2, h3⟩ := ih2 b hb
                simp only []
                rw [hhi]
                exact h1

/-- Controller state used by the C2 witness: freshly cleaned, 5 expected
repetitions. -/
def c2WitnessState : AcqState :=
  { initAcqState with repetitions := 5 }

/-- Read-cycle inputs used by the C2 witness: a cycle with the device still
running and events carrying indices 2, 1, 4, then a cycle with the device
back `ON`. -/
def c2WitnessInputs : List ReadCycleInput :=
  [ReadCycleInput.mk HwState.stRunning
     [DataReadyEvent.mk false 3, DataReadyEvent.mk false 2, DataReadyEvent.mk false 5],
   ReadCycleInput.mk HwState.stOn []]

/-- C2 witness: the cursor invariant holds for the concrete run and the
theorem yields monotonicity and pairwise non-overlap there. -/
theorem C2_witness :
    c2WitnessState.lastIndexRead ≤ c2WitnessState.repetitions - 1 ∧
    c2WitnessState.lastIndexRead
      ≤ (runReads c2WitnessState c2WitnessInputs).1.lastIndexRead ∧
    List.Pairwise (fun a b => a.2 < b.1)
      (runReads c2WitnessState c2WitnessInputs).2 :=
  ⟨by decide,
   (C2_read_cursor_monotone c2WitnessState c2WitnessInputs (by decide)).1,
   (C2_read_cursor_monotone c2WitnessState c2WitnessInputs (by decide)).2.2⟩

end Adlink
